import Mathlib

set_option autoImplicit false

/-
Shallow embedding of the Hidraulics droplet-erosion engine.

Source files embedded here:
  src/droplet.py      (class droplet: __init__, reset, is_inbounds, is_still, step)
  src/cluster_run.py  (an identical inline copy of the droplet class, parameterised by
                       command-line overridable constants, plus the simulation while-loop)
  src/terrain.py      (get_terrain: noise sampling followed by min-max normalisation)

Modelling conventions:
  - Python floats are modelled as rationals; all arithmetic from the source is exact here.
  - numpy square-root is an external function, so step is parameterised by sq : Rat -> Rat.
  - numpy arrays are modelled by Grid: a shape plus a total data function; every read and
    write goes through pyIdx, which reproduces Python indexing semantics: an index i with
    0 <= i < n is used directly, an index with -n <= i < 0 wraps to i + n, and anything
    else raises IndexError, which we model by Option none.
  - numpy float-to-int array conversion truncates toward zero; truncZ reproduces that.
  - the randint draws made by __init__ and reset are passed in as explicit arguments.
-/

/-- Python and numpy index normalisation for one axis of length n: indices in
[0, n) are used as given, indices in [-n, 0) wrap to the end, anything else is
an IndexError (modelled as none). -/
def pyIdx (n : ℕ) (i : ℤ) : Option ℤ :=
  if 0 ≤ i ∧ i < (n : ℤ) then some i
  else if -(n : ℤ) ≤ i ∧ i < 0 then some (i + n)
  else none

/-- Model of a 2-D numpy float array: a shape together with a total data
function. Only indices inside the shape are ever read through Grid.read. -/
structure Grid where
  rows : ℕ
  cols : ℕ
  data : ℤ → ℤ → ℚ

/-- Model of the Python read terrain[i, j], including negative-index wrapping
and IndexError (none). -/
def Grid.read (t : Grid) (i j : ℤ) : Option ℚ :=
  match pyIdx t.rows i, pyIdx t.cols j with
  | some i2, some j2 => some (t.data i2 j2)
  | _, _ => none

/-- Model of the Python in-place update terrain[i, j] += v, including
negative-index wrapping and IndexError (none). -/
def Grid.addAt (t : Grid) (i j : ℤ) (v : ℚ) : Option Grid :=
  match pyIdx t.rows i, pyIdx t.cols j with
  | some i2, some j2 =>
      some { t with data := fun a b => if a = i2 ∧ b = j2 then t.data i2 j2 + v else t.data a b }
  | _, _ => none

/-- The tunable constants of the model. In src/droplet.py these are module
globals; in src/cluster_run.py the same constants are local and some can be
overridden on the command line, so the embedding passes them explicitly. -/
structure Config where
  initial_volume : ℚ
  min_volume : ℚ
  evaporation_rate : ℚ
  dt : ℚ
  g : ℚ
  friction : ℚ
  min_speed : ℚ
  min_slope : ℚ
  p_c : ℚ
  erosion_rate : ℚ
  deposition_rate : ℚ
  initial_sediment : ℚ

/-- The default constant values shared by src/droplet.py and src/cluster_run.py. -/
def defaultConfig : Config :=
  { initial_volume := 1
    min_volume := 1/10
    evaporation_rate := 1/40
    dt := 1/4
    g := 10
    friction := 1/100
    min_speed := 1/100
    min_slope := 1/10
    p_c := 8
    erosion_rate := 7/10
    deposition_rate := 1/4
    initial_sediment := 0 }

/-- Truncation toward zero, the semantics of np.array(x, int) on floats. -/
def truncZ (q : ℚ) : ℤ :=
  if 0 ≤ q then ⌊q⌋ else ⌈q⌉

/-- Shape and entries of the erosion kernel argument of droplet.__init__
(a 2-D numpy array). -/
structure KernelMatrix where
  krows : ℕ
  kcols : ℕ
  entry : ℕ → ℕ → ℚ

/-- State of one droplet agent, the mutable attributes of the Python class.
kernelData holds the pair (erosion_radius, kernel); it is none exactly when
__init__ took the non-square branch that only prints an error and sets
neither attribute, so that a later attribute access raises. -/
structure Droplet where
  inbounds : Bool
  height : ℕ
  width : ℕ
  sediment : ℚ
  volume : ℚ
  kernelData : Option (ℕ × (ℕ → ℕ → ℚ))
  ipos : ℤ × ℤ
  pos : ℚ × ℚ
  vel : ℚ × ℚ
  max_speed : ℚ

/-- Model of droplet.__init__(height, width, erosion_kernel). The random
initial cell np.random.randint([0,0],[height-1,width-1],2) is passed in as
draw. A non-square kernel only prints an error message, leaving the kernel
attributes unset (kernelData = none) while the droplet is still constructed. -/
def dropletInit (cfg : Config) (height width : ℕ) (ker : KernelMatrix) (draw : ℤ × ℤ) :
    Droplet :=
  { inbounds := true
    height := height
    width := width
    sediment := cfg.initial_sediment
    volume := cfg.initial_volume
    kernelData :=
      if ker.krows = ker.kcols then some ((ker.krows - 1) / 2, ker.entry) else none
    ipos := draw
    pos := ((draw.1 : ℚ), (draw.2 : ℚ))
    vel := (0, 0)
    max_speed := 0 }

/-- Model of droplet.reset, with the fresh randint draw passed in. -/
def Droplet.reset (cfg : Config) (d : Droplet) (draw : ℤ × ℤ) : Droplet :=
  { d with
    inbounds := true
    sediment := cfg.initial_sediment
    volume := cfg.initial_volume
    ipos := draw
    pos := ((draw.1 : ℚ), (draw.2 : ℚ))
    vel := (0, 0)
    max_speed := 0 }

/-- The range of np.random.randint([0,0],[height-1,width-1],2): each
coordinate is a uniform integer in [0, axis-1), that is, at most axis-2. -/
def validDraw (height width : ℕ) (p : ℤ × ℤ) : Prop :=
  0 ≤ p.1 ∧ p.1 < (height : ℤ) - 1 ∧ 0 ≤ p.2 ∧ p.2 < (width : ℤ) - 1

/-- Model of droplet.is_inbounds. -/
def Droplet.is_inbounds (d : Droplet) : Bool :=
  if d.pos.1 ≥ (d.height : ℚ) - 1 ∨ d.pos.2 ≥ (d.width : ℚ) - 1 then false
  else if d.pos.1 < 0 ∨ d.pos.2 < 0 then false
  else true

/-- Model of droplet.is_still (defined in the source but never called by the
simulation loop). -/
def Droplet.is_still (cfg : Config) (d : Droplet) (speed slope : ℚ) : Bool :=
  if speed < cfg.min_speed ∧ slope < cfg.min_slope then true else false

/-- Velocity update self.vel -= dt*slope*g of droplet.step, componentwise. -/
def velAfterSlope (cfg : Config) (s0 s1 : ℚ) (v : ℚ × ℚ) : ℚ × ℚ :=
  (v.1 - cfg.dt * s0 * cfg.g, v.2 - cfg.dt * s1 * cfg.g)

/-- Position update self.pos += dt*self.vel of droplet.step. -/
def posAfter (cfg : Config) (p v : ℚ × ℚ) : ℚ × ℚ :=
  (p.1 + cfg.dt * v.1, p.2 + cfg.dt * v.2)

/-- Friction update self.vel *= (1 - dt*friction) of droplet.step. -/
def velAfterFriction (cfg : Config) (v : ℚ × ℚ) : ℚ × ℚ :=
  (v.1 * (1 - cfg.dt * cfg.friction), v.2 * (1 - cfg.dt * cfg.friction))

/-- The erosion double loop of droplet.step:
for i in range(-radius, radius): for j in range(-radius, radius):
terrain[xi+i, yi+j] += s_diff * kernel[i+radius, j+radius].
The loop variable i is k - radius for k in range(2*radius), and likewise j. -/
def erosionLoop (t : Grid) (xi yi : ℤ) (radius : ℕ) (ker : ℕ → ℕ → ℚ) (sd : ℚ) :
    Option Grid :=
  (List.range (2 * radius)).foldlM
    (fun acc (k : ℕ) =>
      (List.range (2 * radius)).foldlM
        (fun acc2 (l : ℕ) =>
          acc2.addAt (xi + (k : ℤ) - (radius : ℤ)) (yi + (l : ℤ) - (radius : ℤ))
            (sd * ker k l))
        acc)
    t

/-- Common tail of droplet.step after the erosion/sedimentation section:
set the new integer position, apply evaporation, and on evaporation deposit
all remaining sediment on the current cell and leave the Active state. -/
def settleTail (cfg : Config) (t : Grid) (d : Droplet) (nc : ℤ × ℤ) :
    Option (Grid × Droplet) :=
  let d2 := { d with ipos := nc, volume := d.volume * (1 - cfg.evaporation_rate * cfg.dt) }
  if d2.volume ≤ cfg.min_volume then
    match t.addAt nc.1 nc.2 d2.sediment with
    | some t2 => some (t2, { d2 with inbounds := false })
    | none => none
  else
    some (t, d2)

/-- Model of droplet.step(terrain, grad_terrain). Identical in
src/droplet.py and src/cluster_run.py. Returns none exactly when the Python
code would raise; otherwise returns the updated terrain and droplet. -/
def Droplet.step (cfg : Config) (sq : ℚ → ℚ) (terrain g0 g1 : Grid) (d : Droplet) :
    Option (Grid × Droplet) :=
  if d.inbounds = false then some (terrain, d)
  else if d.volume ≤ cfg.min_volume then some (terrain, d)
  else
    match g0.read d.ipos.1 d.ipos.2, g1.read d.ipos.1 d.ipos.2 with
    | some s0, some s1 =>
      let v1 := velAfterSlope cfg s0 s1 d.vel
      let p1 := posAfter cfg d.pos v1
      let v2 := velAfterFriction cfg v1
      let d1 : Droplet := { d with pos := p1, vel := v2 }
      if d1.is_inbounds = false then some (terrain, { d1 with inbounds := false })
      else
        match terrain.read (truncZ p1.1) (truncZ p1.2), terrain.read d.ipos.1 d.ipos.2 with
        | some hNew, some hOld =>
          let dh := hNew - hOld
          if dh = 0 then settleTail cfg terrain d1 (truncZ p1.1, truncZ p1.2)
          else
            let speed := sq (v2.1 * v2.1 + v2.2 * v2.2)
            let ms := if speed > d.max_speed then speed else d.max_speed
            let capacity := -dh * speed * d.volume * cfg.p_c
            if dh > 0 then
              match terrain.addAt d.ipos.1 d.ipos.2 (min d.sediment dh * cfg.deposition_rate) with
              | some t1 =>
                  settleTail cfg t1
                    { d1 with
                      max_speed := ms
                      sediment := d.sediment - min d.sediment dh * cfg.deposition_rate }
                    (truncZ p1.1, truncZ p1.2)
              | none => none
            else if d.sediment > capacity then
              match terrain.addAt d.ipos.1 d.ipos.2
                  (min (d.sediment - capacity) (-dh) * cfg.deposition_rate) with
              | some t1 =>
                  settleTail cfg t1
                    { d1 with
                      max_speed := ms
                      sediment := d.sediment -
                        min (d.sediment - capacity) (-dh) * cfg.deposition_rate }
                    (truncZ p1.1, truncZ p1.2)
              | none => none
            else
              match d.kernelData with
              | some (radius, ker) =>
                match erosionLoop terrain d.ipos.1 d.ipos.2 radius ker
                    (-(min (capacity - d.sediment) (-dh)) * cfg.erosion_rate) with
                | some t1 =>
                    settleTail cfg t1
                      { d1 with
                        max_speed := ms
                        sediment := d.sediment -
                          -(min (capacity - d.sediment) (-dh)) * cfg.erosion_rate }
                      (truncZ p1.1, truncZ p1.2)
                | none => none
              | none => none
        | _, _ => none
    | _, _ => none

/-- The per-droplet while-loop of src/cluster_run.py main:
i = 0; while pepe.inbounds and i < 250: pepe.step(...); i += 1.
fuel bounds the recursion; runDroplet supplies fuel = cap so the fuel never
runs out before the loop condition fails. Returns the final terrain, the
final droplet and the number of executed step calls. -/
def runWhileAux (cfg : Config) (sq : ℚ → ℚ) (g0 g1 : Grid) (cap : ℕ) :
    ℕ → Grid → Droplet → ℕ → Option (Grid × Droplet × ℕ)
  | 0, t, d, i => some (t, d, i)
  | fuel + 1, t, d, i =>
    if d.inbounds = true ∧ i < cap then
      match Droplet.step cfg sq t g0 g1 d with
      | some (t2, d2) => runWhileAux cfg sq g0 g1 cap fuel t2 d2 (i + 1)
      | none => none
    else some (t, d, i)

/-- One full droplet trajectory of the simulator loop: the while-loop run
from i = 0 with the step cap cap (250 in the source). -/
def runDroplet (cfg : Config) (sq : ℚ → ℚ) (g0 g1 : Grid) (cap : ℕ) (t : Grid)
    (d : Droplet) : Option (Grid × Droplet × ℕ) :=
  runWhileAux cfg sq g0 g1 cap cap t d 0

/-- All values of the filled region of a rows-by-cols grid of values, row
major, as a list. -/
def gridVals (rows cols : ℕ) (f : ℤ → ℤ → ℚ) : List ℚ :=
  (List.range rows).flatMap fun (i : ℕ) =>
    (List.range cols).map fun (j : ℕ) => f (i : ℤ) (j : ℤ)

/-- Minimum of a list of rationals, the semantics of numpy ndarray.min on the
filled region (junk value 0 on the empty list, which numpy rejects). -/
def listMin : List ℚ → ℚ
  | [] => 0
  | [x] => x
  | x :: y :: xs => min x (listMin (y :: xs))

/-- Maximum of a list of rationals, the semantics of numpy ndarray.max. -/
def listMax : List ℚ → ℚ
  | [] => 0
  | [x] => x
  | x :: y :: xs => max x (listMax (y :: xs))

/-- Sum of all grid values, used to measure total terrain mass. -/
def gridTotal (t : Grid) : ℚ :=
  (gridVals t.rows t.cols t.data).sum

/-- Model of get_terrain in src/terrain.py: fill terrain[i][j] with
noiseFn(i/scale, j/scale) (pnoise2 is the external noise function), then
return (terrain - terrain.min()) / (terrain.max() - terrain.min()). -/
def get_terrain (rows cols : ℕ) (scale : ℚ) (noiseFn : ℚ → ℚ → ℚ) : Grid :=
  let raw : ℤ → ℤ → ℚ := fun i j => noiseFn ((i : ℚ) / scale) ((j : ℚ) / scale)
  let m := listMin (gridVals rows cols raw)
  let M := listMax (gridVals rows cols raw)
  { rows := rows
    cols := cols
    data := fun i j => (raw i j - m) / (M - m) }

/-- The bounds invariant of the claims: while the droplet is Active
(inbounds = true) its integer cell lies in [0, height-2] x [0, width-2]. -/
def inBox (d : Droplet) : Prop :=
  d.inbounds = true →
    0 ≤ d.ipos.1 ∧ d.ipos.1 ≤ (d.height : ℤ) - 2 ∧
    0 ≤ d.ipos.2 ∧ d.ipos.2 ≤ (d.width : ℤ) - 2

/-- Square-root stand-in used for concrete witness evaluations (Droplet.step is
parameterised over the external numpy square root). -/
def sqrtStub : ℚ → ℚ := fun _ => 1

/-- The 3 x 3 erosion kernel of src/cluster_run.py: [[1,2,1],[2,4,2],[1,2,1]] / 16. -/
def gaussKernel : ℕ → ℕ → ℚ := fun i j =>
  (if i = 1 then 2 else 1) * (if j = 1 then 2 else 1) / 16

/-- Concrete all-zero 4 x 4 gradient grid for witnesses. -/
def zeroGrid : Grid := ⟨4, 4, fun _ _ => 0⟩

/-- Concrete flat 4 x 4 terrain for witnesses. -/
def flatGrid : Grid := ⟨4, 4, fun _ _ => 1/2⟩

/-- Concrete Active droplet resting at cell (1,1) of a 4 x 4 map. -/
def wActive : Droplet :=
  ⟨true, 4, 4, 0, 1, some (1, gaussKernel), (1, 1), (1, 1), (0, 0), 0⟩

/-- Concrete terminal droplet (inbounds = false). -/
def wDead : Droplet :=
  ⟨false, 4, 4, 3/10, 1, some (1, gaussKernel), (1, 1), (1, 1), (0, 0), 0⟩

/-- Result of one step of wActive on flat terrain with zero gradient: only
evaporation happens. -/
def wAfterFlat : Droplet :=
  { wActive with volume := 159/160 }

/-- Concrete gradient grid with constant row-gradient -2, which pushes a
droplet toward larger row indices. -/
def slopeGrid : Grid := ⟨4, 4, fun _ _ => -2⟩

/-- Concrete gradient grid with constant gradient -4, steep enough to push a
droplet off the map in a single step. -/
def steepGrid : Grid := ⟨4, 4, fun _ _ => -4⟩

/-- Concrete 4 x 4 terrain with a drop from cell (1,2) (height 1) to cell (2,2)
(height 0); every other cell has height 1/2. -/
def dropTerrain : Grid :=
  ⟨4, 4, fun i j =>
    if i = 1 ∧ j = 2 then 1 else if i = 2 ∧ j = 2 then 0 else 1/2⟩

/-- Concrete Active droplet at interior cell (1,2) of a 4 x 4 map, carrying the
cluster_run kernel. -/
def dDrop : Droplet :=
  ⟨true, 4, 4, 0, 1, some (1, gaussKernel), (1, 2), (1, 2), (0, 0), 0⟩

/-- Concrete 4 x 4 terrain with a drop from edge cell (0,2) (height 1) to cell
(1,2) (height 0); every other cell has height 1/2. -/
def edgeTerrain : Grid :=
  ⟨4, 4, fun i j =>
    if i = 0 ∧ j = 2 then 1 else if i = 1 ∧ j = 2 then 0 else 1/2⟩

/-- Concrete Active droplet sitting on the top edge of the map, cell (0,2). -/
def dEdge : Droplet :=
  ⟨true, 4, 4, 0, 1, some (1, gaussKernel), (0, 2), (0, 2), (0, 0), 0⟩

/-- The cluster_run kernel as a KernelMatrix argument for droplet.__init__. -/
def gaussKernelMatrix : KernelMatrix := ⟨3, 3, gaussKernel⟩

/-- A 1 x 2 (non-square) erosion kernel matrix. -/
def badKernel : KernelMatrix := ⟨1, 2, fun _ _ => 1⟩

/-- The droplet built by droplet(4, 4, badKernel) with random draw (1,1):
construction succeeds and only the kernel attributes are left unset. -/
def dBad : Droplet := dropletInit defaultConfig 4 4 badKernel (1, 1)

lemma truncZ_nonneg {q : ℚ} (h : 0 ≤ q) : 0 ≤ truncZ q := by
  unfold truncZ
  rw [if_pos h]
  exact Int.floor_nonneg.mpr h

lemma truncZ_le {q : ℚ} (h : 0 ≤ q) : (truncZ q : ℚ) ≤ q := by
  unfold truncZ
  rw [if_pos h]
  exact Int.floor_le q

lemma settleTail_some (cfg : Config) (t : Grid) (d : Droplet) (nc : ℤ × ℤ)
    (t2 : Grid) (d2 : Droplet) (h : settleTail cfg t d nc = some (t2, d2)) :
    d2.pos = d.pos ∧ d2.vel = d.vel ∧ d2.sediment = d.sediment ∧ d2.ipos = nc ∧
    d2.height = d.height ∧ d2.width = d.width ∧ d2.kernelData = d.kernelData ∧
    d2.max_speed = d.max_speed ∧
    d2.volume = d.volume * (1 - cfg.evaporation_rate * cfg.dt) := by
  unfold settleTail at h
  dsimp only at h
  split at h
  · split at h
    · rw [Option.some.injEq, Prod.mk.injEq] at h
      obtain ⟨h1, h2⟩ := h
      subst h2
      simp
    · exact absurd h (by simp)
  · rw [Option.some.injEq, Prod.mk.injEq] at h
    obtain ⟨h1, h2⟩ := h
    subst h2
    simp

lemma step_skip_terminal (cfg : Config) (sq : ℚ → ℚ) (terrain g0 g1 : Grid)
    (d : Droplet) (h : d.inbounds = false ∨ d.volume ≤ cfg.min_volume) :
    Droplet.step cfg sq terrain g0 g1 d = some (terrain, d) := by
  rcases h with h | h
  · unfold Droplet.step
    rw [if_pos h]
  · unfold Droplet.step
    rcases hb : d.inbounds with _ | _
    · rw [if_pos rfl]
    · rw [if_neg (by simp), if_pos h]

lemma settleTail_no_evap (cfg : Config) (t : Grid) (d : Droplet) (nc : ℤ × ℤ)
    (t2 : Grid) (d2 : Droplet)
    (h : settleTail cfg t d nc = some (t2, d2))
    (hv : ¬ d.volume * (1 - cfg.evaporation_rate * cfg.dt) ≤ cfg.min_volume) :
    t2 = t ∧
    d2 = { d with ipos := nc, volume := d.volume * (1 - cfg.evaporation_rate * cfg.dt) } := by
  unfold settleTail at h
  dsimp only at h
  rw [if_neg hv] at h
  rw [Option.some.injEq, Prod.mk.injEq] at h
  exact ⟨h.1.symm, h.2.symm⟩

lemma is_inbounds_bounds {d : Droplet} (h : ¬ d.is_inbounds = false) :
    0 ≤ d.pos.1 ∧ d.pos.1 < (d.height : ℚ) - 1 ∧
    0 ≤ d.pos.2 ∧ d.pos.2 < (d.width : ℚ) - 1 := by
  unfold Droplet.is_inbounds at h
  by_cases hA : d.pos.1 ≥ (d.height : ℚ) - 1 ∨ d.pos.2 ≥ (d.width : ℚ) - 1
  · rw [if_pos hA] at h
    exact absurd rfl h
  · rw [if_neg hA] at h
    by_cases hB : d.pos.1 < 0 ∨ d.pos.2 < 0
    · rw [if_pos hB] at h
      exact absurd rfl h
    · push_neg at hA hB
      exact ⟨hB.1, hA.1, hB.2, hA.2⟩

lemma truncZ_box {q : ℚ} {n : ℕ} (h0 : 0 ≤ q) (h1 : q < (n : ℚ) - 1) :
    0 ≤ truncZ q ∧ truncZ q ≤ (n : ℤ) - 2 := by
  refine ⟨truncZ_nonneg h0, ?_⟩
  have hle : (truncZ q : ℚ) < (n : ℚ) - 1 := lt_of_le_of_lt (truncZ_le h0) h1
  have h2 : truncZ q < (n : ℤ) - 1 := by exact_mod_cast hle
  omega

lemma wStep_flat_eval :
    Droplet.step defaultConfig sqrtStub flatGrid zeroGrid zeroGrid wActive =
      some (flatGrid, wAfterFlat) := by
  norm_num [Droplet.step, defaultConfig, sqrtStub, flatGrid, zeroGrid, wActive, wAfterFlat,
    Grid.read, pyIdx, velAfterSlope, posAfter, velAfterFriction, Droplet.is_inbounds,
    truncZ, settleTail]

/-- C5: a droplet in a terminal state (out of bounds, or volume at or below
min_volume) makes step a no-op that never raises: the terrain and every
droplet field are returned unchanged. -/
theorem step_terminal_noop (cfg : Config) (sq : ℚ → ℚ) (terrain g0 g1 : Grid)
    (d : Droplet) (h : d.inbounds = false ∨ d.volume ≤ cfg.min_volume) :
    Droplet.step cfg sq terrain g0 g1 d = some (terrain, d) :=
  step_skip_terminal cfg sq terrain g0 g1 d h

theorem step_terminal_noop_witness :
    (wDead.inbounds = false ∨ wDead.volume ≤ defaultConfig.min_volume) ∧
    Droplet.step defaultConfig sqrtStub flatGrid zeroGrid zeroGrid wDead =
      some (flatGrid, wDead) :=
  ⟨Or.inl rfl,
   step_terminal_noop defaultConfig sqrtStub flatGrid zeroGrid zeroGrid wDead (Or.inl rfl)⟩

/-- C4: in every Active step the velocity is first decreased by dt*slope*g,
the position is then advanced by dt times that updated (pre-friction)
velocity, and the velocity is then damped by the factor (1 - dt*friction). -/
theorem step_updates_kinematics (cfg : Config) (sq : ℚ → ℚ) (terrain g0 g1 : Grid)
    (d : Droplet) (s0 s1 : ℚ) (t2 : Grid) (d2 : Droplet)
    (hb : d.inbounds = true) (hv : ¬ d.volume ≤ cfg.min_volume)
    (h0 : g0.read d.ipos.1 d.ipos.2 = some s0)
    (h1 : g1.read d.ipos.1 d.ipos.2 = some s1)
    (hs : Droplet.step cfg sq terrain g0 g1 d = some (t2, d2)) :
    d2.pos = posAfter cfg d.pos (velAfterSlope cfg s0 s1 d.vel) ∧
    d2.vel = velAfterFriction cfg (velAfterSlope cfg s0 s1 d.vel) := by
  unfold Droplet.step at hs
  rw [hb] at hs
  rw [if_neg (by simp), if_neg hv, h0, h1] at hs
  dsimp only at hs
  split at hs
  · rw [Option.some.injEq, Prod.mk.injEq] at hs
    obtain ⟨ht, hd⟩ := hs
    subst hd
    simp [velAfterSlope, posAfter, velAfterFriction]
  · split at hs
    on_goal 2 => exact absurd hs (by simp)
    split at hs
    · have := settleTail_some _ _ _ _ _ _ hs
      exact ⟨this.1, this.2.1⟩
    · split at hs
      · split at hs
        on_goal 2 => exact absurd hs (by simp)
        have := settleTail_some _ _ _ _ _ _ hs
        exact ⟨this.1, this.2.1⟩
      · split at hs
        · split at hs
          on_goal 2 => exact absurd hs (by simp)
          have := settleTail_some _ _ _ _ _ _ hs
          exact ⟨this.1, this.2.1⟩
        · split at hs
          on_goal 2 => exact absurd hs (by simp)
          split at hs
          on_goal 2 => exact absurd hs (by simp)
          have := settleTail_some _ _ _ _ _ _ hs
          exact ⟨this.1, this.2.1⟩

theorem step_updates_kinematics_witness :
    wAfterFlat.pos =
      posAfter defaultConfig wActive.pos (velAfterSlope defaultConfig 0 0 wActive.vel) ∧
    wAfterFlat.vel =
      velAfterFriction defaultConfig (velAfterSlope defaultConfig 0 0 wActive.vel) :=
  step_updates_kinematics defaultConfig sqrtStub flatGrid zeroGrid zeroGrid wActive 0 0
    flatGrid wAfterFlat rfl (by norm_num [wActive, defaultConfig])
    (by norm_num [Grid.read, pyIdx, zeroGrid, wActive])
    (by norm_num [Grid.read, pyIdx, zeroGrid, wActive])
    wStep_flat_eval

lemma runWhileAux_terminal (cfg : Config) (sq : ℚ → ℚ) (g0 g1 : Grid) (cap fuel : ℕ)
    (t : Grid) (d : Droplet) (i : ℕ) (hd : d.inbounds = false) :
    runWhileAux cfg sq g0 g1 cap fuel t d i = some (t, d, i) := by
  cases fuel with
  | zero => rfl
  | succ fuel =>
    unfold runWhileAux
    rw [if_neg (by simp [hd])]

lemma runWhileAux_cap_bound (cfg : Config) (sq : ℚ → ℚ) (g0 g1 : Grid) (cap : ℕ) :
    ∀ fuel i t d t2 d2 n, i ≤ cap → cap ≤ fuel + i →
      runWhileAux cfg sq g0 g1 cap fuel t d i = some (t2, d2, n) →
      n ≤ cap ∧ (d2.inbounds = false ∨ n = cap) := by
  intro fuel
  induction fuel with
  | zero =>
    intro i t d t2 d2 n hi hcap h
    unfold runWhileAux at h
    rw [Option.some.injEq, Prod.mk.injEq, Prod.mk.injEq] at h
    obtain ⟨h1, h2, h3⟩ := h
    subst h2
    exact ⟨by omega, Or.inr (by omega)⟩
  | succ fuel ih =>
    intro i t d t2 d2 n hi hcap h
    unfold runWhileAux at h
    split at h
    · rename_i hcond
      obtain ⟨hcb, hci⟩ := hcond
      split at h
      · exact ih (i + 1) _ _ t2 d2 n (by omega) (by omega) h
      · exact absurd h (by simp)
    · rename_i hcond
      rw [Option.some.injEq, Prod.mk.injEq, Prod.mk.injEq] at h
      obtain ⟨h1, h2, h3⟩ := h
      subst h2 h3
      refine ⟨hi, ?_⟩
      by_cases hbb : d.inbounds = true
      · right
        have hnl : ¬ i < cap := fun hlt => hcond ⟨hbb, hlt⟩
        omega
      · left
        revert hbb
        cases d.inbounds <;> simp

/-- C7: the simulator while-loop of src/cluster_run.py runs at most 250 step
calls per trajectory: whenever the loop returns, the executed step count n
satisfies n ≤ 250, and either the droplet reached a terminal state or it was
forcibly stopped by the cap (n = 250). -/
theorem step_cap_bounds_trajectory (cfg : Config) (sq : ℚ → ℚ) (g0 g1 t : Grid)
    (d : Droplet) (t2 : Grid) (d2 : Droplet) (n : ℕ)
    (h : runDroplet cfg sq g0 g1 250 t d = some (t2, d2, n)) :
    n ≤ 250 ∧ (d2.inbounds = false ∨ n = 250) :=
  runWhileAux_cap_bound cfg sq g0 g1 250 250 0 t d t2 d2 n (by omega) (by omega) h

theorem step_cap_bounds_trajectory_witness :
    (0 : ℕ) ≤ 250 ∧ (wDead.inbounds = false ∨ (0 : ℕ) = 250) :=
  step_cap_bounds_trajectory defaultConfig sqrtStub zeroGrid zeroGrid flatGrid wDead
    flatGrid wDead 0
    (runWhileAux_terminal defaultConfig sqrtStub zeroGrid zeroGrid 250 250 flatGrid wDead 0 rfl)

lemma inBox_of_settle {d2 : Droplet} {nc : ℤ × ℤ} {h w : ℕ}
    (hip : d2.ipos = nc) (hh : d2.height = h) (hw : d2.width = w)
    (hb : 0 ≤ nc.1 ∧ nc.1 ≤ (h : ℤ) - 2 ∧ 0 ≤ nc.2 ∧ nc.2 ≤ (w : ℤ) - 2) :
    inBox d2 := by
  intro _
  rw [hip, hh, hw]
  exact hb

/-- C2: while a droplet is Active its integer cell lies in
[0, height-2] x [0, width-2]: reset establishes the invariant for any valid
randint draw, every successful step preserves it, and a step whose integrated
position leaves the region only flips the lifecycle flag, returning the
terrain unchanged with the same sediment and volume (no erosion, deposition
or evaporation happens on an out-of-bounds step). -/
theorem bounds_invariant (cfg : Config) (sq : ℚ → ℚ) (terrain g0 g1 : Grid)
    (d : Droplet) (t2 : Grid) (d2 : Droplet) (draw : ℤ × ℤ) :
    (validDraw d.height d.width draw → inBox (Droplet.reset cfg d draw)) ∧
    (inBox d → Droplet.step cfg sq terrain g0 g1 d = some (t2, d2) → inBox d2) ∧
    (∀ s0 s1, d.inbounds = true → ¬ d.volume ≤ cfg.min_volume →
      g0.read d.ipos.1 d.ipos.2 = some s0 → g1.read d.ipos.1 d.ipos.2 = some s1 →
      ({ d with pos := posAfter cfg d.pos (velAfterSlope cfg s0 s1 d.vel),
                vel := velAfterFriction cfg (velAfterSlope cfg s0 s1 d.vel) } :
          Droplet).is_inbounds = false →
      Droplet.step cfg sq terrain g0 g1 d =
        some (terrain,
          { d with pos := posAfter cfg d.pos (velAfterSlope cfg s0 s1 d.vel),
                   vel := velAfterFriction cfg (velAfterSlope cfg s0 s1 d.vel),
                   inbounds := false })) := by
  refine ⟨?_, ?_, ?_⟩
  · intro hd _
    unfold validDraw at hd
    unfold Droplet.reset
    dsimp only
    omega
  · intro hbox hs
    by_cases hb : d.inbounds = true
    case neg =>
      have hb2 : d.inbounds = false := by revert hb; cases d.inbounds <;> simp
      rw [step_skip_terminal cfg sq terrain g0 g1 d (Or.inl hb2)] at hs
      rw [Option.some.injEq, Prod.mk.injEq] at hs
      rw [← hs.2]
      exact hbox
    by_cases hv : d.volume ≤ cfg.min_volume
    case pos =>
      rw [step_skip_terminal cfg sq terrain g0 g1 d (Or.inr hv)] at hs
      rw [Option.some.injEq, Prod.mk.injEq] at hs
      rw [← hs.2]
      exact hbox
    unfold Droplet.step at hs
    rw [if_neg (by simp [hb]), if_neg hv] at hs
    split at hs
    on_goal 2 => exact absurd hs (by simp)
    dsimp only at hs
    split at hs
    · rw [Option.some.injEq, Prod.mk.injEq] at hs
      rw [← hs.2]
      intro hcontr
      exact absurd hcontr (by simp)
    · rename_i hIn
      have hbd := is_inbounds_bounds hIn
      dsimp only at hbd
      have hc1 := truncZ_box hbd.1 hbd.2.1
      have hc2 := truncZ_box hbd.2.2.1 hbd.2.2.2
      split at hs
      on_goal 2 => exact absurd hs (by simp)
      split at hs
      · have st := settleTail_some _ _ _ _ _ _ hs
        exact inBox_of_settle st.2.2.2.1 st.2.2.2.2.1 st.2.2.2.2.2.1
          ⟨hc1.1, hc1.2, hc2.1, hc2.2⟩
      · split at hs
        · split at hs
          on_goal 2 => exact absurd hs (by simp)
          have st := settleTail_some _ _ _ _ _ _ hs
          exact inBox_of_settle st.2.2.2.1 st.2.2.2.2.1 st.2.2.2.2.2.1
            ⟨hc1.1, hc1.2, hc2.1, hc2.2⟩
        · split at hs
          · split at hs
            on_goal 2 => exact absurd hs (by simp)
            have st := settleTail_some _ _ _ _ _ _ hs
            exact inBox_of_settle st.2.2.2.1 st.2.2.2.2.1 st.2.2.2.2.2.1
              ⟨hc1.1, hc1.2, hc2.1, hc2.2⟩
          · split at hs
            on_goal 2 => exact absurd hs (by simp)
            split at hs
            on_goal 2 => exact absurd hs (by simp)
            have st := settleTail_some _ _ _ _ _ _ hs
            exact inBox_of_settle st.2.2.2.1 st.2.2.2.2.1 st.2.2.2.2.2.1
              ⟨hc1.1, hc1.2, hc2.1, hc2.2⟩
  · intro s0 s1 hb hv h0 h1 hOOB
    unfold Droplet.step
    rw [if_neg (by simp [hb]), if_neg hv, h0, h1]
    dsimp only
    rw [if_pos hOOB]

theorem bounds_invariant_witness :
    inBox (Droplet.reset defaultConfig wActive (2, 2)) ∧ inBox wAfterFlat ∧
    Droplet.step defaultConfig sqrtStub flatGrid steepGrid steepGrid wActive =
      some (flatGrid,
        { wActive with
            pos := posAfter defaultConfig wActive.pos
              (velAfterSlope defaultConfig (-4) (-4) wActive.vel)
            vel := velAfterFriction defaultConfig
              (velAfterSlope defaultConfig (-4) (-4) wActive.vel)
            inbounds := false }) := by
  refine ⟨?_, ?_, ?_⟩
  · exact (bounds_invariant defaultConfig sqrtStub flatGrid zeroGrid zeroGrid wActive
      flatGrid wAfterFlat (2, 2)).1 (by norm_num [validDraw, wActive])
  · exact (bounds_invariant defaultConfig sqrtStub flatGrid zeroGrid zeroGrid wActive
      flatGrid wAfterFlat (2, 2)).2.1
      (by unfold inBox; intro _; norm_num [wActive]) wStep_flat_eval
  · exact (bounds_invariant defaultConfig sqrtStub flatGrid steepGrid steepGrid wActive
      flatGrid wAfterFlat (2, 2)).2.2 (-4) (-4) rfl
      (by norm_num [wActive, defaultConfig])
      (by norm_num [Grid.read, pyIdx, steepGrid, wActive])
      (by norm_num [Grid.read, pyIdx, steepGrid, wActive])
      (by norm_num [Droplet.is_inbounds, posAfter, velAfterSlope, velAfterFriction,
        wActive, defaultConfig])

lemma capacity_nonneg {dh S V P : ℚ} (hdh : dh < 0) (hS : 0 ≤ S) (hV : 0 ≤ V)
    (hP : 0 ≤ P) : 0 ≤ -dh * S * V * P :=
  mul_nonneg (mul_nonneg (mul_nonneg (by linarith) hS) hV) hP

lemma sediment_deposit1_nonneg {s dh dep : ℚ} (hs0 : 0 ≤ s) (hdh : 0 < dh)
    (hdep1 : dep ≤ 1) : 0 ≤ s - min s dh * dep := by
  have h1 : 0 ≤ min s dh := le_min hs0 (le_of_lt hdh)
  have h2 : min s dh * dep ≤ min s dh * 1 := mul_le_mul_of_nonneg_left hdep1 h1
  have h3 : min s dh ≤ s := min_le_left _ _
  linarith

lemma sediment_deposit2_nonneg {s C dh dep : ℚ} (hC : 0 ≤ C) (hcap : s > C)
    (hdh : dh < 0) (hdep1 : dep ≤ 1) : 0 ≤ s - min (s - C) (-dh) * dep := by
  have h1 : 0 ≤ min (s - C) (-dh) := le_min (by linarith) (by linarith)
  have h2 : min (s - C) (-dh) * dep ≤ min (s - C) (-dh) * 1 :=
    mul_le_mul_of_nonneg_left hdep1 h1
  have h3 : min (s - C) (-dh) ≤ s - C := min_le_left _ _
  linarith

lemma sediment_erosion_nonneg {s C dh ero : ℚ} (hs0 : 0 ≤ s) (hcap : ¬ s > C)
    (hdh : dh < 0) (hero : 0 ≤ ero) : 0 ≤ s - -(min (C - s) (-dh)) * ero := by
  have h1 : 0 ≤ min (C - s) (-dh) := le_min (by push_neg at hcap; linarith) (by linarith)
  have h2 : 0 ≤ min (C - s) (-dh) * ero := mul_nonneg h1 hero
  linarith

/-- C9: the sediment of a droplet is never negative: it is non-negative after
construction and after every reset (initial_sediment being non-negative), and
every successful step preserves non-negativity, given deposition_rate in
[0,1], non-negative erosion rate and capacity factor, a non-negative
min_volume and a square root that returns non-negative values. -/
theorem sediment_nonneg (cfg : Config) (sq : ℚ → ℚ) (terrain g0 g1 : Grid)
    (d : Droplet) (t2 : Grid) (d2 : Droplet) (draw : ℤ × ℤ)
    (height width : ℕ) (ker : KernelMatrix)
    (hsed : 0 ≤ cfg.initial_sediment) (hdep1 : cfg.deposition_rate ≤ 1)
    (hero : 0 ≤ cfg.erosion_rate) (hpc : 0 ≤ cfg.p_c) (hmv : 0 ≤ cfg.min_volume)
    (hsq : ∀ x, 0 ≤ sq x) :
    0 ≤ (dropletInit cfg height width ker draw).sediment ∧
    0 ≤ (Droplet.reset cfg d draw).sediment ∧
    (0 ≤ d.sediment → Droplet.step cfg sq terrain g0 g1 d = some (t2, d2) →
      0 ≤ d2.sediment) := by
  refine ⟨hsed, hsed, ?_⟩
  intro hs0 hs
  by_cases hb : d.inbounds = true
  case neg =>
    have hb2 : d.inbounds = false := by revert hb; cases d.inbounds <;> simp
    rw [step_skip_terminal cfg sq terrain g0 g1 d (Or.inl hb2)] at hs
    rw [Option.some.injEq, Prod.mk.injEq] at hs
    rw [← hs.2]
    exact hs0
  by_cases hv : d.volume ≤ cfg.min_volume
  case pos =>
    rw [step_skip_terminal cfg sq terrain g0 g1 d (Or.inr hv)] at hs
    rw [Option.some.injEq, Prod.mk.injEq] at hs
    rw [← hs.2]
    exact hs0
  have hvol : 0 ≤ d.volume := le_trans hmv (le_of_lt (lt_of_not_ge hv))
  unfold Droplet.step at hs
  rw [if_neg (by simp [hb]), if_neg hv] at hs
  split at hs
  on_goal 2 => exact absurd hs (by simp)
  dsimp only at hs
  split at hs
  · rw [Option.some.injEq, Prod.mk.injEq] at hs
    rw [← hs.2]
    exact hs0
  · split at hs
    on_goal 2 => exact absurd hs (by simp)
    split at hs
    · have st := settleTail_some _ _ _ _ _ _ hs
      rw [st.2.2.1]
      exact hs0
    · rename_i hdh0
      split at hs
      · rename_i hdhpos
        split at hs
        on_goal 2 => exact absurd hs (by simp)
        have st := settleTail_some _ _ _ _ _ _ hs
        rw [st.2.2.1]
        exact sediment_deposit1_nonneg hs0 hdhpos hdep1
      · rename_i hdhneg
        have hdhlt := lt_of_le_of_ne (le_of_not_gt hdhneg) hdh0
        split at hs
        · rename_i hcap
          split at hs
          on_goal 2 => exact absurd hs (by simp)
          have st := settleTail_some _ _ _ _ _ _ hs
          rw [st.2.2.1]
          exact sediment_deposit2_nonneg
            (capacity_nonneg hdhlt (hsq _) hvol hpc) hcap hdhlt hdep1
        · rename_i hcap
          split at hs
          on_goal 2 => exact absurd hs (by simp)
          split at hs
          on_goal 2 => exact absurd hs (by simp)
          have st := settleTail_some _ _ _ _ _ _ hs
          rw [st.2.2.1]
          exact sediment_erosion_nonneg hs0 hcap hdhlt hero

theorem sediment_nonneg_witness :
    0 ≤ (dropletInit defaultConfig 4 4 gaussKernelMatrix (1, 1)).sediment ∧
    0 ≤ (Droplet.reset defaultConfig wActive (2, 2)).sediment ∧
    (0 ≤ wActive.sediment →
      Droplet.step defaultConfig sqrtStub flatGrid zeroGrid zeroGrid wActive =
        some (flatGrid, wAfterFlat) → 0 ≤ wAfterFlat.sediment) :=
  sediment_nonneg defaultConfig sqrtStub flatGrid zeroGrid zeroGrid wActive
    flatGrid wAfterFlat (2, 2) 4 4 gaussKernelMatrix
    (by norm_num [defaultConfig]) (by norm_num [defaultConfig])
    (by norm_num [defaultConfig]) (by norm_num [defaultConfig])
    (by norm_num [defaultConfig]) (fun x => by norm_num [sqrtStub])

/-- C3: the erosion/deposition decision structure of an Active in-bounds step.
With deltaHeight = heightmap[new cell] - heightmap[old cell] and capacity =
-deltaHeight * speed * volume * capacityFactor: an uphill move deposits
min(sediment, deltaHeight) * depositionRate onto the old cell and subtracts it
from sediment; a downhill move over capacity deposits min(sediment - capacity,
-deltaHeight) * depositionRate onto the old cell and subtracts it; a downhill
move at or under capacity runs the kernel erosion loop on the old cell with
total -(min(capacity - sediment, -deltaHeight) * erosionRate) and adds
min(capacity - sediment, -deltaHeight) * erosionRate to sediment; with
deltaHeight exactly zero neither erosion nor deposition happens. -/
theorem step_erosion_deposition_cases (cfg : Config) (sq : ℚ → ℚ)
    (terrain g0 g1 : Grid) (d : Droplet) (t2 : Grid) (d2 : Droplet)
    (s0 s1 hNew hOld : ℚ) (radius : ℕ) (ker : ℕ → ℕ → ℚ)
    (hb : d.inbounds = true) (hv : ¬ d.volume ≤ cfg.min_volume)
    (h0 : g0.read d.ipos.1 d.ipos.2 = some s0)
    (h1 : g1.read d.ipos.1 d.ipos.2 = some s1)
    (hin : ¬ ({ d with
                  pos := posAfter cfg d.pos (velAfterSlope cfg s0 s1 d.vel),
                  vel := velAfterFriction cfg (velAfterSlope cfg s0 s1 d.vel) } :
          Droplet).is_inbounds = false)
    (hrN : terrain.read (truncZ (posAfter cfg d.pos (velAfterSlope cfg s0 s1 d.vel)).1)
        (truncZ (posAfter cfg d.pos (velAfterSlope cfg s0 s1 d.vel)).2) = some hNew)
    (hrO : terrain.read d.ipos.1 d.ipos.2 = some hOld)
    (hker : d.kernelData = some (radius, ker))
    (hnoEvap : ¬ d.volume * (1 - cfg.evaporation_rate * cfg.dt) ≤ cfg.min_volume)
    (hs : Droplet.step cfg sq terrain g0 g1 d = some (t2, d2)) :
    let v2 := velAfterFriction cfg (velAfterSlope cfg s0 s1 d.vel)
    let speed := sq (v2.1 * v2.1 + v2.2 * v2.2)
    let capacity := -(hNew - hOld) * speed * d.volume * cfg.p_c
    (hNew - hOld = 0 → t2 = terrain ∧ d2.sediment = d.sediment) ∧
    (hNew - hOld > 0 →
      d2.sediment = d.sediment - min d.sediment (hNew - hOld) * cfg.deposition_rate ∧
      terrain.addAt d.ipos.1 d.ipos.2
          (min d.sediment (hNew - hOld) * cfg.deposition_rate) = some t2) ∧
    (hNew - hOld < 0 → d.sediment > capacity →
      d2.sediment = d.sediment -
        min (d.sediment - capacity) (-(hNew - hOld)) * cfg.deposition_rate ∧
      terrain.addAt d.ipos.1 d.ipos.2
          (min (d.sediment - capacity) (-(hNew - hOld)) * cfg.deposition_rate) = some t2) ∧
    (hNew - hOld < 0 → ¬ d.sediment > capacity →
      d2.sediment = d.sediment +
        min (capacity - d.sediment) (-(hNew - hOld)) * cfg.erosion_rate ∧
      erosionLoop terrain d.ipos.1 d.ipos.2 radius ker
          (-(min (capacity - d.sediment) (-(hNew - hOld))) * cfg.erosion_rate) = some t2) := by
  unfold Droplet.step at hs
  rw [if_neg (by simp [hb]), if_neg hv, h0, h1] at hs
  dsimp only at hs
  rw [if_neg hin, hrN, hrO] at hs
  dsimp only at hs
  dsimp only
  refine ⟨?_, ?_, ?_, ?_⟩
  · intro hdh
    rw [if_pos hdh] at hs
    have st := settleTail_no_evap _ _ _ _ _ _ hs (by exact hnoEvap)
    refine ⟨st.1, ?_⟩
    rw [st.2]
  · intro hdh
    rw [if_neg (ne_of_gt hdh), if_pos hdh] at hs
    split at hs
    on_goal 2 => exact absurd hs (by simp)
    rename_i t1 heq
    have st := settleTail_no_evap _ _ _ _ _ _ hs (by exact hnoEvap)
    refine ⟨by rw [st.2], ?_⟩
    rw [st.1]
    exact heq
  · intro hdh hcap
    rw [if_neg (ne_of_lt hdh), if_neg (by linarith), if_pos hcap] at hs
    split at hs
    on_goal 2 => exact absurd hs (by simp)
    rename_i t1 heq
    have st := settleTail_no_evap _ _ _ _ _ _ hs (by exact hnoEvap)
    refine ⟨by rw [st.2], ?_⟩
    rw [st.1]
    exact heq
  · intro hdh hcap
    rw [if_neg (ne_of_lt hdh), if_neg (by linarith), if_neg hcap, hker] at hs
    dsimp only at hs
    split at hs
    on_goal 2 => exact absurd hs (by simp)
    rename_i t1 heq
    have st := settleTail_no_evap _ _ _ _ _ _ hs (by exact hnoEvap)
    refine ⟨?_, ?_⟩
    · rw [st.2]
      dsimp only
      ring
    · rw [st.1]
      exact heq

theorem step_erosion_deposition_cases_witness :
    flatGrid = flatGrid ∧ wAfterFlat.sediment = wActive.sediment :=
  (step_erosion_deposition_cases defaultConfig sqrtStub flatGrid zeroGrid zeroGrid
    wActive flatGrid wAfterFlat 0 0 (1/2) (1/2) 1 gaussKernel rfl
    (by norm_num [wActive, defaultConfig])
    (by norm_num [Grid.read, pyIdx, zeroGrid, wActive])
    (by norm_num [Grid.read, pyIdx, zeroGrid, wActive])
    (by norm_num [Droplet.is_inbounds, posAfter, velAfterSlope, velAfterFriction,
      wActive, defaultConfig])
    (by norm_num [Grid.read, pyIdx, flatGrid, truncZ, posAfter, velAfterSlope,
      velAfterFriction, wActive, defaultConfig])
    (by norm_num [Grid.read, pyIdx, flatGrid, wActive])
    rfl
    (by norm_num [wActive, defaultConfig])
    wStep_flat_eval).1 (by norm_num)

lemma listMin_cons2 (x y : ℚ) (xs : List ℚ) :
    listMin (x :: y :: xs) = min x (listMin (y :: xs)) := rfl

lemma listMax_cons2 (x y : ℚ) (xs : List ℚ) :
    listMax (x :: y :: xs) = max x (listMax (y :: xs)) := rfl

lemma listMin_le_listMax : ∀ xs : List ℚ, listMin xs ≤ listMax xs
  | [] => le_refl 0
  | [x] => le_refl x
  | x :: y :: xs =>
    le_trans (min_le_left x (listMin (y :: xs))) (le_max_left x (listMax (y :: xs)))

lemma listMin_map_mono (f : ℚ → ℚ) (hf : Monotone f) :
    ∀ (x : ℚ) (xs : List ℚ), listMin ((x :: xs).map f) = f (listMin (x :: xs))
  | _, [] => rfl
  | x, y :: xs => by
    show min (f x) (listMin ((y :: xs).map f)) = f (min x (listMin (y :: xs)))
    rw [listMin_map_mono f hf y xs, hf.map_min]

lemma listMax_map_mono (f : ℚ → ℚ) (hf : Monotone f) :
    ∀ (x : ℚ) (xs : List ℚ), listMax ((x :: xs).map f) = f (listMax (x :: xs))
  | _, [] => rfl
  | x, y :: xs => by
    show max (f x) (listMax ((y :: xs).map f)) = f (max x (listMax (y :: xs)))
    rw [listMax_map_mono f hf y xs, hf.map_max]

lemma gridVals_normalize (rows cols : ℕ) (f : ℤ → ℤ → ℚ) (m c : ℚ) :
    gridVals rows cols (fun i j => (f i j - m) / c) =
      (gridVals rows cols f).map (fun x => (x - m) / c) := by
  unfold gridVals
  rw [List.map_flatMap]
  simp only [List.map_map]
  rfl

lemma gridVals_length (rows cols : ℕ) (f : ℤ → ℤ → ℚ) :
    (gridVals rows cols f).length = rows * cols := by
  unfold gridVals
  rw [List.length_flatMap]
  simp only [List.map_map, Function.comp_def, List.length_map, List.length_range]
  rw [List.map_const']
  simp [List.sum_replicate, smul_eq_mul, List.length_range]

lemma gridVals_ne_nil {rows cols : ℕ} (hr : 0 < rows) (hc : 0 < cols)
    (f : ℤ → ℤ → ℚ) : gridVals rows cols f ≠ [] := by
  intro h
  have hlen := gridVals_length rows cols f
  rw [h] at hlen
  have := Nat.mul_pos hr hc
  simp at hlen
  omega

lemma normalize_min_max (rows cols : ℕ) (f : ℤ → ℤ → ℚ) (hr : 0 < rows) (hc : 0 < cols)
    (hlt : listMin (gridVals rows cols f) < listMax (gridVals rows cols f)) :
    listMin (gridVals rows cols (fun i j =>
      (f i j - listMin (gridVals rows cols f)) /
      (listMax (gridVals rows cols f) - listMin (gridVals rows cols f)))) = 0 ∧
    listMax (gridVals rows cols (fun i j =>
      (f i j - listMin (gridVals rows cols f)) /
      (listMax (gridVals rows cols f) - listMin (gridVals rows cols f)))) = 1 := by
  set m := listMin (gridVals rows cols f) with hm
  set M := listMax (gridVals rows cols f) with hM
  have hmono : Monotone (fun x : ℚ => (x - m) / (M - m)) := by
    intro a b hab
    show (a - m) / (M - m) ≤ (b - m) / (M - m)
    rw [div_eq_mul_inv, div_eq_mul_inv]
    exact mul_le_mul_of_nonneg_right (by linarith) (inv_nonneg.mpr (by linarith))
  rw [gridVals_normalize]
  obtain ⟨y, ys, hys⟩ := List.exists_cons_of_ne_nil (gridVals_ne_nil hr hc f)
  rw [hys]
  constructor
  · rw [listMin_map_mono _ hmono y ys, ← hys]
    show (m - m) / (M - m) = 0
    rw [sub_self, zero_div]
  · rw [listMax_map_mono _ hmono y ys, ← hys]
    show (M - m) / (M - m) = 1
    exact div_self (by linarith)

/-- C8: for positive grid dimensions and a raw noise grid whose minimum and
maximum differ, the heightmap returned by get_terrain has minimum exactly 0
and maximum exactly 1. -/
theorem terrain_normalized (rows cols : ℕ) (scale : ℚ) (noiseFn : ℚ → ℚ → ℚ)
    (hr : 0 < rows) (hc : 0 < cols)
    (hnd : listMin (gridVals rows cols
        (fun i j => noiseFn ((i : ℚ) / scale) ((j : ℚ) / scale))) ≠
      listMax (gridVals rows cols
        (fun i j => noiseFn ((i : ℚ) / scale) ((j : ℚ) / scale)))) :
    listMin (gridVals rows cols (get_terrain rows cols scale noiseFn).data) = 0 ∧
    listMax (gridVals rows cols (get_terrain rows cols scale noiseFn).data) = 1 := by
  have h := normalize_min_max rows cols
    (fun i j => noiseFn ((i : ℚ) / scale) ((j : ℚ) / scale)) hr hc
    (lt_of_le_of_ne (listMin_le_listMax _) hnd)
  exact h

theorem terrain_normalized_witness :
    listMin (gridVals 2 1 (get_terrain 2 1 1 (fun x _ => x)).data) = 0 ∧
    listMax (gridVals 2 1 (get_terrain 2 1 1 (fun x _ => x)).data) = 1 :=
  terrain_normalized 2 1 1 (fun x _ => x) (by norm_num) (by norm_num)
    (by norm_num [gridVals, listMin, listMax, List.range_succ])

/-- C1: a concrete erosion step on which the per-step mass balance fails.
On dropTerrain, the droplet dDrop takes one erosion step with the cluster_run
kernel and gains 7/10 of sediment, but the terrain total drops by only
63/160 = (9/16)*(7/10), because the loop over [-radius, radius) misses the
+radius row and column of the kernel, whose weights sum to 9/16 over the
truncated footprint instead of 1. The deposition branches (which add s_diff
to exactly one cell and subtract the same s_diff from sediment) are covered
by the C3 theorem. -/
theorem erosion_mass_not_conserved :
    (Droplet.step defaultConfig sqrtStub dropTerrain slopeGrid zeroGrid dDrop).map
        (fun r => (gridTotal r.1 - gridTotal dropTerrain,
          r.2.sediment - dDrop.sediment)) =
      some (-(63/160), 7/10) ∧ -((63:ℚ)/160) ≠ -(7/10) := by
  constructor
  · norm_num [Droplet.step, defaultConfig, sqrtStub, dropTerrain, slopeGrid, zeroGrid,
      dDrop, Grid.read, Grid.addAt, pyIdx, velAfterSlope, posAfter, velAfterFriction,
      Droplet.is_inbounds, truncZ, settleTail, erosionLoop, gaussKernel, gridTotal,
      gridVals, List.range_succ, List.foldlM]
  · norm_num

/-- C10: an erosion step taken from the edge cell (0,2) with a radius-1
kernel writes through the negative index -1, which Python silently wraps to
the last row: the step succeeds (no error, no clipping) and the opposite-edge
cell (3,1) changes from 1/2 to 73/160 = 1/2 - (7/10)*(1/16). -/
theorem erosion_wraps_at_edge :
    (Droplet.step defaultConfig sqrtStub edgeTerrain slopeGrid zeroGrid dEdge).map
        (fun r => r.1.data 3 1) = some (73/160) ∧
    edgeTerrain.data 3 1 = 1/2 ∧ ((73:ℚ)/160) ≠ 1/2 := by
  refine ⟨?_, by norm_num [edgeTerrain], by norm_num⟩
  norm_num [Droplet.step, defaultConfig, sqrtStub, edgeTerrain, slopeGrid, zeroGrid,
    dEdge, Grid.read, Grid.addAt, pyIdx, velAfterSlope, posAfter, velAfterFriction,
    Droplet.is_inbounds, truncZ, settleTail, erosionLoop, gaussKernel,
    List.range_succ, List.foldlM]

/-- C6: a non-square kernel is not rejected at construction time: the
constructed droplet merely lacks the kernel attributes (kernelData = none),
a step that avoids the erosion branch runs through without error, and a step
that reaches the erosion branch raises at simulation time (none), long after
construction. -/
theorem nonsquare_kernel_not_rejected :
    dBad.kernelData = none ∧
    Droplet.step defaultConfig sqrtStub flatGrid zeroGrid zeroGrid dBad =
      some (flatGrid, { dBad with volume := 159/160 }) ∧
    Droplet.step defaultConfig sqrtStub edgeTerrain slopeGrid zeroGrid
      { dBad with ipos := (0, 2), pos := (0, 2) } = none := by
  refine ⟨rfl, ?_, ?_⟩
  · norm_num [Droplet.step, defaultConfig, sqrtStub, flatGrid, zeroGrid, dBad,
      dropletInit, badKernel, Grid.read, Grid.addAt, pyIdx, velAfterSlope, posAfter,
      velAfterFriction, Droplet.is_inbounds, truncZ, settleTail]
  · norm_num [Droplet.step, defaultConfig, sqrtStub, edgeTerrain, slopeGrid, zeroGrid,
      dBad, dropletInit, badKernel, Grid.read, Grid.addAt, pyIdx, velAfterSlope,
      posAfter, velAfterFriction, Droplet.is_inbounds, truncZ, settleTail]
